import Mathlib

/-!
Verification of the zkwasm-staking-position certificate ledger core.

The definitions below are a shallow embedding of the Rust sources:
machine `u64` values are modelled as `Nat` together with the explicit
bound `U64_LIMIT = 2 ^ 64`; the checked arithmetic of `src/math_safe.rs`
is modelled by functions into `Except Nat Nat` carrying the numeric
error codes of `src/error.rs`.
-/

deriving instance DecidableEq for Except

namespace ZkStaking

/-- Exclusive upper bound of the `u64` range. -/
def U64_LIMIT : Nat := 2 ^ 64

/-! Error codes from `src/error.rs`. -/

def ERROR_PLAYER_NOT_EXIST : Nat := 1
def ERROR_PLAYER_ALREADY_EXIST : Nat := 2
def ERROR_INSUFFICIENT_BALANCE : Nat := 3
def ERROR_OVERFLOW : Nat := 11
def ERROR_DIVISION_BY_ZERO : Nat := 12
def ERROR_UNDERFLOW : Nat := 13
def ERROR_INSUFFICIENT_STAKE : Nat := 21
def ERROR_INVALID_STAKE_AMOUNT : Nat := 22
def ERROR_STAKE_TOO_SMALL : Nat := 23
def ERROR_STAKE_TOO_LARGE : Nat := 24
def ERROR_NO_STAKE_TO_WITHDRAW : Nat := 25

/-- Modelled from the spec: the catalog, certificate and interest error
codes of the error taxonomy (§7) are referenced throughout
`src/cert_manager.rs` and `src/command.rs` and named in `decode_error`,
but their numeric definitions are missing from `src/error.rs`; they are
modelled here as pairwise distinct codes continuing the numbering. -/
def ERROR_INSUFFICIENT_POINTS : Nat := 26
def ERROR_INVALID_POINTS_AMOUNT : Nat := 27
def ERROR_POINTS_AMOUNT_TOO_SMALL : Nat := 28
def ERROR_PRODUCT_TYPE_NOT_EXIST : Nat := 31
def ERROR_PRODUCT_TYPE_INACTIVE : Nat := 32
def ERROR_CERTIFICATE_NOT_EXIST : Nat := 33
def ERROR_CERTIFICATE_NOT_OWNED : Nat := 34
def ERROR_CERTIFICATE_NOT_MATURED : Nat := 35
def ERROR_CERTIFICATE_ALREADY_REDEEMED : Nat := 36
def ERROR_INSUFFICIENT_INTEREST : Nat := 37
def ERROR_INVALID_PRINCIPAL_AMOUNT : Nat := 38
def ERROR_PRINCIPAL_AMOUNT_TOO_SMALL : Nat := 39
def ERROR_INVALID_APY : Nat := 40
def ERROR_INVALID_DURATION : Nat := 41

/-! Checked arithmetic from `src/math_safe.rs`. -/

/-- `safe_add` from `src/math_safe.rs`: checked `u64` addition. -/
def safe_add (a b : Nat) : Except Nat Nat :=
  if a + b < U64_LIMIT then Except.ok (a + b) else Except.error ERROR_OVERFLOW

/-- `safe_sub` from `src/math_safe.rs`: checked `u64` subtraction. -/
def safe_sub (a b : Nat) : Except Nat Nat :=
  if b ≤ a then Except.ok (a - b) else Except.error ERROR_UNDERFLOW

/-- `safe_mul` from `src/math_safe.rs`: checked `u64` multiplication. -/
def safe_mul (a b : Nat) : Except Nat Nat :=
  if a * b < U64_LIMIT then Except.ok (a * b) else Except.error ERROR_OVERFLOW

/-- `safe_div` from `src/math_safe.rs`: division with zero check. -/
def safe_div (a b : Nat) : Except Nat Nat :=
  if b = 0 then Except.error ERROR_DIVISION_BY_ZERO else Except.ok (a / b)

/-! Constants from `src/certificate.rs` and `src/config.rs`. -/

def SECONDS_PER_DAY : Nat := 86400
def SECONDS_PER_YEAR : Nat := 31536000
def BASIS_POINTS_DIVISOR : Nat := 10000
def MAX_CERTIFICATE_AMOUNT : Nat := 1000000000
def MAX_APY_BASIS_POINTS : Nat := 50000
def MIN_CERTIFICATE_AMOUNT : Nat := 10
def MAX_CERTIFICATE_DURATION_TICKS : Nat := 3650 * 17280
def SECONDS_PER_TICK : Nat := 5
def TICKS_PER_DAY : Nat := 17280
def MAX_RESERVE_RATIO : Nat := 5000

/-- `CertificateStatus` from `src/certificate.rs`. -/
inductive CertificateStatus where
  | Active
  | Matured
  | Redeemed
  deriving DecidableEq, Repr

/-- `CertificateStatus::to_u64` from `src/certificate.rs`. -/
def CertificateStatus.to_u64 : CertificateStatus → Nat
  | .Active => 0
  | .Matured => 1
  | .Redeemed => 2

/-- `CertificateStatus::from_u64` from `src/certificate.rs`. -/
def CertificateStatus.from_u64 : Nat → CertificateStatus
  | 0 => .Active
  | 1 => .Matured
  | 2 => .Redeemed
  | _ + 3 => .Active

/-- `ProductType` from `src/certificate.rs`. -/
structure ProductType where
  id : Nat
  duration_ticks : Nat
  apy : Nat
  min_amount : Nat
  is_active : Bool
  deriving DecidableEq, Repr

/-- `ProductType::new` from `src/certificate.rs`. -/
def ProductType.new (id duration_ticks apy min_amount : Nat) : ProductType :=
  { id := id, duration_ticks := duration_ticks, apy := apy,
    min_amount := min_amount, is_active := true }

/-- `ProductType::calculate_maturity_time` from `src/certificate.rs`. -/
def ProductType.calculate_maturity_time (p : ProductType) (purchase_time : Nat) :
    Except Nat Nat :=
  safe_add purchase_time p.duration_ticks

/-- `Certificate` from `src/certificate.rs`. -/
structure Certificate where
  id : Nat
  owner : Nat × Nat
  product_type_id : Nat
  principal : Nat
  purchase_time : Nat
  maturity_time : Nat
  locked_apy : Nat
  total_interest_claimed : Nat
  status : CertificateStatus
  deriving DecidableEq, Repr

/-- `Certificate::new` from `src/certificate.rs`: fresh certificate with
zero claimed interest and `Active` status. -/
def Certificate.new (id : Nat) (owner : Nat × Nat)
    (product_type_id principal purchase_time maturity_time locked_apy : Nat) :
    Certificate :=
  { id := id, owner := owner, product_type_id := product_type_id,
    principal := principal, purchase_time := purchase_time,
    maturity_time := maturity_time, locked_apy := locked_apy,
    total_interest_claimed := 0, status := .Active }

/-- `Certificate::calculate_total_simple_interest` from
`src/certificate.rs` (the `?`-chains of the Rust source are written as
explicit matches on the checked operations). -/
def Certificate.calculate_total_simple_interest (c : Certificate)
    (current_time : Nat) : Except Nat Nat :=
  if current_time ≤ c.purchase_time then Except.ok 0
  else
    match safe_sub current_time c.purchase_time with
    | .error e => .error e
    | .ok total_time =>
      match safe_mul total_time SECONDS_PER_TICK with
      | .error e => .error e
      | .ok total_time_seconds =>
        match safe_mul c.principal c.locked_apy with
        | .error e => .error e
        | .ok pa =>
          match safe_div pa BASIS_POINTS_DIVISOR with
          | .error e => .error e
          | .ok annual_interest =>
            match safe_mul annual_interest total_time_seconds with
            | .error e => .error e
            | .ok scaled => safe_div scaled SECONDS_PER_YEAR

/-- `Certificate::calculate_available_interest` from `src/certificate.rs`. -/
def Certificate.calculate_available_interest (c : Certificate)
    (current_time : Nat) : Except Nat Nat :=
  match c.calculate_total_simple_interest current_time with
  | .error e => .error e
  | .ok total_earned =>
    if c.total_interest_claimed ≤ total_earned then
      safe_sub total_earned c.total_interest_claimed
    else Except.ok 0

/-- `Certificate::claim_interest` from `src/certificate.rs`: record a
claimed amount on the certificate. -/
def Certificate.claim_interest (c : Certificate) (claimed_amount : Nat) :
    Except Nat Certificate :=
  match safe_add c.total_interest_claimed claimed_amount with
  | .error e => .error e
  | .ok n => Except.ok { c with total_interest_claimed := n }

/-- `Certificate::is_matured` from `src/certificate.rs`. -/
def Certificate.is_matured (c : Certificate) (current_time : Nat) : Bool :=
  c.maturity_time ≤ current_time

/-- `Certificate::update_status` from `src/certificate.rs`: lazy
`Active → Matured` promotion. -/
def Certificate.update_status (c : Certificate) (current_time : Nat) :
    Certificate :=
  match c.status with
  | .Active =>
    if c.is_matured current_time then { c with status := .Matured } else c
  | _ => c

/-- `Certificate::redeem_principal` from `src/certificate.rs`. -/
def Certificate.redeem_principal (c : Certificate) (current_time : Nat) :
    Except Nat Certificate :=
  if ¬ c.is_matured current_time then Except.error ERROR_CERTIFICATE_NOT_MATURED
  else Except.ok { c with status := .Redeemed }

/-! ## Characterisation of the interest formula -/

/-- The exact overflow-gate of the interest computation: all three
checked multiplications stay inside the `u64` range. -/
def interestFits (c : Certificate) (t : Nat) : Prop :=
  (t - c.purchase_time) * SECONDS_PER_TICK < U64_LIMIT ∧
  c.principal * c.locked_apy < U64_LIMIT ∧
  c.principal * c.locked_apy / BASIS_POINTS_DIVISOR *
    ((t - c.purchase_time) * SECONDS_PER_TICK) < U64_LIMIT

instance (c : Certificate) (t : Nat) : Decidable (interestFits c t) := by
  unfold interestFits; infer_instance

/-- The mathematical value of the interest formula. -/
def interestValue (c : Certificate) (t : Nat) : Nat :=
  c.principal * c.locked_apy / BASIS_POINTS_DIVISOR *
    ((t - c.purchase_time) * SECONDS_PER_TICK) / SECONDS_PER_YEAR

lemma calcTotal_eq (c : Certificate) (t : Nat) :
    c.calculate_total_simple_interest t =
      if t ≤ c.purchase_time then Except.ok 0
      else if interestFits c t then Except.ok (interestValue c t)
      else Except.error ERROR_OVERFLOW := by
  unfold Certificate.calculate_total_simple_interest safe_sub safe_mul safe_div
  by_cases h1 : t ≤ c.purchase_time
  · simp [h1]
  · have hle : c.purchase_time ≤ t := Nat.le_of_not_le h1
    simp only [if_neg h1, if_pos hle]
    by_cases h2 : (t - c.purchase_time) * SECONDS_PER_TICK < U64_LIMIT
    · simp only [if_pos h2]
      by_cases h3 : c.principal * c.locked_apy < U64_LIMIT
      · simp only [if_pos h3]
        have hbp : BASIS_POINTS_DIVISOR ≠ 0 := by decide
        simp only [if_neg hbp]
        by_cases h4 : c.principal * c.locked_apy / BASIS_POINTS_DIVISOR *
            ((t - c.purchase_time) * SECONDS_PER_TICK) < U64_LIMIT
        · have hfits : interestFits c t := ⟨h2, h3, h4⟩
          have hy : SECONDS_PER_YEAR ≠ 0 := by decide
          simp only [if_pos h4, if_neg hy, if_pos hfits, interestValue]
        · have hnfits : ¬ interestFits c t := fun h => h4 h.2.2
          simp only [if_neg h4, if_neg hnfits]
      · have hnfits : ¬ interestFits c t := fun h => h3 h.2.1
        simp only [if_neg h3, if_neg hnfits]
    · have hnfits : ¬ interestFits c t := fun h => h2 h.1
      simp only [if_neg h2, if_neg hnfits]

/-- A successful interest computation stays inside the `u64` range. -/
lemma calcTotal_ok_lt {c : Certificate} {t v : Nat}
    (h : c.calculate_total_simple_interest t = Except.ok v) : v < U64_LIMIT := by
  rw [calcTotal_eq] at h
  split at h
  · cases h; exact by decide
  · split at h
    · cases h
      calc interestValue c t ≤ c.principal * c.locked_apy / BASIS_POINTS_DIVISOR *
            ((t - c.purchase_time) * SECONDS_PER_TICK) := Nat.div_le_self _ _
        _ < U64_LIMIT := by
            rename_i hfits
            exact hfits.2.2
    · cases h

/-- Interest accrual is monotone in the evaluation time: if the later
computation succeeds, so does the earlier one, with a value no larger. -/
lemma calcTotal_mono {c : Certificate} {t1 t2 v2 : Nat} (h12 : t1 ≤ t2)
    (h : c.calculate_total_simple_interest t2 = Except.ok v2) :
    ∃ v1, c.calculate_total_simple_interest t1 = Except.ok v1 ∧ v1 ≤ v2 := by
  rw [calcTotal_eq] at h ⊢
  by_cases ha : t1 ≤ c.purchase_time
  · exact ⟨0, by simp [ha], Nat.zero_le _⟩
  · have hb : ¬ t2 ≤ c.purchase_time := fun hc =>
      ha (le_trans h12 hc)
    rw [if_neg hb] at h
    rw [if_neg ha]
    split at h
    · rename_i hfits2
      cases h
      have hsub : t1 - c.purchase_time ≤ t2 - c.purchase_time :=
        Nat.sub_le_sub_right h12 _
      have hmul : (t1 - c.purchase_time) * SECONDS_PER_TICK ≤
          (t2 - c.purchase_time) * SECONDS_PER_TICK :=
        Nat.mul_le_mul_right _ hsub
      have hmul2 : c.principal * c.locked_apy / BASIS_POINTS_DIVISOR *
          ((t1 - c.purchase_time) * SECONDS_PER_TICK) ≤
          c.principal * c.locked_apy / BASIS_POINTS_DIVISOR *
          ((t2 - c.purchase_time) * SECONDS_PER_TICK) :=
        Nat.mul_le_mul_left _ hmul
      have hfits1 : interestFits c t1 :=
        ⟨lt_of_le_of_lt hmul hfits2.1, hfits2.2.1, lt_of_le_of_lt hmul2 hfits2.2.2⟩
      refine ⟨interestValue c t1, by rw [if_pos hfits1], ?_⟩
      exact Nat.div_le_div_right hmul2
    · cases h

/-- Available interest in terms of a successful total computation:
`available = total - claimed` with truncated subtraction. -/
lemma calcAvail_eq {c : Certificate} {t v : Nat}
    (h : c.calculate_total_simple_interest t = Except.ok v) :
    c.calculate_available_interest t = Except.ok (v - c.total_interest_claimed) := by
  unfold Certificate.calculate_available_interest
  rw [h]
  dsimp only
  by_cases hc : c.total_interest_claimed ≤ v
  · rw [if_pos hc]
    unfold safe_sub
    rw [if_pos hc]
  · rw [if_neg hc]
    have : v - c.total_interest_claimed = 0 :=
      Nat.sub_eq_zero_of_le (Nat.le_of_not_le hc)
    rw [this]

/-- `CertificateManager::claim_interest` from `src/cert_manager.rs`,
restricted to its effect on the certificate loaded for the caller:
computes the available interest at the current time, rejects a zero
claim, records the claim on the certificate and returns the claimed
amount (storage round-tripping is the identity on the record). -/
def claimInterestMgr (c : Certificate) (current_time : Nat) :
    Except Nat (Certificate × Nat) :=
  match c.calculate_available_interest current_time with
  | .error e => .error e
  | .ok available_interest =>
    if available_interest = 0 then Except.error ERROR_INSUFFICIENT_INTEREST
    else
      match c.claim_interest available_interest with
      | .error e => .error e
      | .ok c2 => Except.ok (c2, available_interest)

/-- A sequence of manager claims at the given times (the claimed amount
of each step is exactly the available interest at that step, as enforced
by `CertificateManager::claim_interest`). -/
def applyClaims (c : Certificate) : List Nat → Except Nat Certificate
  | [] => Except.ok c
  | t :: ts =>
    match claimInterestMgr c t with
    | .error e => .error e
    | .ok r => applyClaims r.1 ts

/-- Updating the claimed total does not change the accrual computation. -/
lemma calcTotal_set_claimed (c : Certificate) (x t : Nat) :
    Certificate.calculate_total_simple_interest
      { c with total_interest_claimed := x } t =
    c.calculate_total_simple_interest t := rfl

/-- A successful manager claim brings the claimed total up to exactly
the total interest accrued at the claim time. -/
lemma claimMgr_ok {c c2 : Certificate} {t a : Nat}
    (h : claimInterestMgr c t = Except.ok (c2, a)) :
    ∃ v, c.calculate_total_simple_interest t = Except.ok v ∧
      c.total_interest_claimed < v ∧
      c2 = { c with total_interest_claimed := v } := by
  unfold claimInterestMgr at h
  cases ht : c.calculate_total_simple_interest t with
  | error e =>
      unfold Certificate.calculate_available_interest at h
      rw [ht] at h
      exact absurd h (by simp)
  | ok v =>
      rw [calcAvail_eq ht] at h
      dsimp only at h
      by_cases ha : v - c.total_interest_claimed = 0
      · rw [if_pos ha] at h
        exact absurd h (by simp)
      · rw [if_neg ha] at h
        have hlt : c.total_interest_claimed < v := by omega
        have hv : v < U64_LIMIT := calcTotal_ok_lt ht
        have hsum : c.total_interest_claimed + (v - c.total_interest_claimed) = v := by
          omega
        unfold Certificate.claim_interest safe_add at h
        rw [hsum, if_pos hv] at h
        dsimp only at h
        simp only [Except.ok.injEq, Prod.mk.injEq] at h
        exact ⟨v, ht ▸ rfl, hlt, h.1.symm⟩

/-- After a successful claim sequence the certificate is either
untouched or its claimed total equals the total interest accrued at one
of the claim times. -/
lemma applyClaims_cases (ts : List Nat) : ∀ c c' : Certificate,
    applyClaims c ts = Except.ok c' →
    c' = c ∨ ∃ tn ∈ ts,
      c'.calculate_total_simple_interest tn =
        Except.ok c'.total_interest_claimed := by
  induction ts with
  | nil =>
      intro c c' h
      left
      unfold applyClaims at h
      simpa using h.symm
  | cons t ts ih =>
      intro c c' h
      unfold applyClaims at h
      cases hm : claimInterestMgr c t with
      | error e => rw [hm] at h; exact absurd h (by simp)
      | ok r =>
          rw [hm] at h
          dsimp only at h
          obtain ⟨v, hv, _, hc1⟩ := @claimMgr_ok c r.1 t r.2 (by rw [hm])
          rcases ih r.1 c' h with hceq | ⟨tn, htn, hcalc⟩
          · right
            refine ⟨t, List.mem_cons_self t ts, ?_⟩
            rw [hceq, hc1, calcTotal_set_claimed]
            exact hv
          · right
            exact ⟨tn, List.mem_cons_of_mem _ htn, hcalc⟩

/-- C2: for any evaluation time no earlier than every claim time, total
interest accrued equals interest already claimed plus available
interest, and this conservation holds before and after any sequence of
manager-discipline claims (each claiming exactly the then-available
interest) starting from a certificate with nothing claimed. -/
theorem C2_total_eq_claimed_plus_available (c c' : Certificate)
    (ts : List Nat) (t v : Nat)
    (hfresh : c.total_interest_claimed = 0)
    (htimes : ∀ x ∈ ts, x ≤ t)
    (happ : applyClaims c ts = Except.ok c')
    (htotal : c'.calculate_total_simple_interest t = Except.ok v) :
    c'.calculate_available_interest t =
      Except.ok (v - c'.total_interest_claimed) ∧
    v = c'.total_interest_claimed + (v - c'.total_interest_claimed) := by
  have hle : c'.total_interest_claimed ≤ v := by
    rcases applyClaims_cases ts c c' happ with hceq | ⟨tn, htn, hcalc⟩
    · rw [hceq, hfresh]; exact Nat.zero_le _
    · obtain ⟨v1, hv1, hle1⟩ := calcTotal_mono (htimes tn htn) htotal
      have : Except.ok (ε := Nat) v1 = Except.ok c'.total_interest_claimed :=
        hv1.symm.trans hcalc
      simp only [Except.ok.injEq] at this
      omega
  exact ⟨calcAvail_eq htotal, by omega⟩

/-- A concrete certificate: 100000 principal, 12% APY, bought at tick 0. -/
def witCert : Certificate := Certificate.new 1 (100, 200) 1 100000 0 6307200 1200

/-- `witCert` after the manager claim at tick 17280 (one day): 32 units
of interest have been claimed. -/
def witCertClaimed : Certificate := { witCert with total_interest_claimed := 32 }

/-- Witness for C2: after claiming the 32 units available at one day,
the two-day total of 65 splits as 32 claimed plus 33 available. -/
theorem C2_witness :
    witCertClaimed.calculate_available_interest 34560 =
      Except.ok (65 - witCertClaimed.total_interest_claimed) ∧
    65 = witCertClaimed.total_interest_claimed +
      (65 - witCertClaimed.total_interest_claimed) :=
  C2_total_eq_claimed_plus_available witCert witCertClaimed [17280] 34560 65
    (by decide) (by decide) (by decide) (by decide)

/-- C1: `calculate_total_simple_interest` returns `0` for evaluation
times at or before the purchase time; afterwards it returns
`floor(floor(principal * locked_apy / 10000) * elapsed_seconds / 31536000)`
with `elapsed_seconds = (at_time - purchase_time) * SECONDS_PER_TICK`,
and returns the `Overflow` error instead whenever any of the checked
intermediate operations would exceed the `u64` range. -/
theorem C1_total_simple_interest_spec (c : Certificate) (t : Nat) :
    c.calculate_total_simple_interest t =
      if t ≤ c.purchase_time then Except.ok 0
      else if (t - c.purchase_time) * SECONDS_PER_TICK < U64_LIMIT ∧
              c.principal * c.locked_apy < U64_LIMIT ∧
              c.principal * c.locked_apy / BASIS_POINTS_DIVISOR *
                ((t - c.purchase_time) * SECONDS_PER_TICK) < U64_LIMIT then
        Except.ok (c.principal * c.locked_apy / BASIS_POINTS_DIVISOR *
          ((t - c.purchase_time) * SECONDS_PER_TICK) / SECONDS_PER_YEAR)
      else Except.error ERROR_OVERFLOW :=
  calcTotal_eq c t

/-- `CertificateManager::redeem_principal` from `src/cert_manager.rs`,
restricted to its effect on the certificate loaded for the caller:
promotes the lazy status, rejects an already redeemed certificate,
delegates maturity checking to `Certificate::redeem_principal`, and
returns the redeemed certificate together with its principal (storage
round-tripping is the identity on the record). -/
def redeemPrincipalMgr (c : Certificate) (current_time : Nat) :
    Except Nat (Certificate × Nat) :=
  let c1 := c.update_status current_time
  if c1.status = CertificateStatus.Redeemed then
    Except.error ERROR_CERTIFICATE_ALREADY_REDEEMED
  else
    match c1.redeem_principal current_time with
    | .error e => .error e
    | .ok c2 => Except.ok (c2, c2.principal)

/-- C3: redeeming an already redeemed certificate fails with
`CertificateAlreadyRedeemed`; redeeming a not-yet-redeemed certificate
before maturity fails with `CertificateNotMatured`; at or after maturity
it succeeds, marks the certificate `Redeemed` and returns exactly the
original principal, and a second redemption then fails with
`CertificateAlreadyRedeemed`. -/
theorem C3_redeem_principal_spec (c : Certificate) (t t' : Nat) :
    (c.status = CertificateStatus.Redeemed →
      redeemPrincipalMgr c t = Except.error ERROR_CERTIFICATE_ALREADY_REDEEMED) ∧
    (c.status ≠ CertificateStatus.Redeemed → t < c.maturity_time →
      redeemPrincipalMgr c t = Except.error ERROR_CERTIFICATE_NOT_MATURED) ∧
    (c.status ≠ CertificateStatus.Redeemed → c.maturity_time ≤ t →
      redeemPrincipalMgr c t =
        Except.ok ({ c with status := CertificateStatus.Redeemed }, c.principal) ∧
      redeemPrincipalMgr { c with status := CertificateStatus.Redeemed } t' =
        Except.error ERROR_CERTIFICATE_ALREADY_REDEEMED) := by
  refine ⟨?_, ?_, ?_⟩
  · intro h
    simp [redeemPrincipalMgr, Certificate.update_status, h]
  · intro hs hlt
    have hnm : ¬ c.maturity_time ≤ t := Nat.not_le.mpr hlt
    cases hst : c.status with
    | Active =>
        simp [redeemPrincipalMgr, Certificate.update_status,
          Certificate.redeem_principal, Certificate.is_matured, hst, hnm]
    | Matured =>
        simp [redeemPrincipalMgr, Certificate.update_status,
          Certificate.redeem_principal, Certificate.is_matured, hst, hnm]
    | Redeemed => exact absurd hst hs
  · intro hs hge
    constructor
    · cases hst : c.status with
      | Active =>
          simp [redeemPrincipalMgr, Certificate.update_status,
            Certificate.redeem_principal, Certificate.is_matured, hst, hge]
      | Matured =>
          simp [redeemPrincipalMgr, Certificate.update_status,
            Certificate.redeem_principal, Certificate.is_matured, hst, hge]
      | Redeemed => exact absurd hst hs
    · simp [redeemPrincipalMgr, Certificate.update_status]

/-- A concrete active certificate with principal 5000 maturing at tick 100. -/
def witRedeemCert : Certificate := Certificate.new 2 (1, 2) 1 5000 0 100 1000

/-- Witness for C3: early redemption fails, redemption exactly at
maturity succeeds returning the principal, a second redemption fails. -/
theorem C3_witness :
    redeemPrincipalMgr witRedeemCert 99 =
      Except.error ERROR_CERTIFICATE_NOT_MATURED ∧
    redeemPrincipalMgr witRedeemCert 100 =
      Except.ok ({ witRedeemCert with status := CertificateStatus.Redeemed }, 5000) ∧
    redeemPrincipalMgr { witRedeemCert with status := CertificateStatus.Redeemed } 150 =
      Except.error ERROR_CERTIFICATE_ALREADY_REDEEMED :=
  ⟨(C3_redeem_principal_spec witRedeemCert 99 0).2.1 (by decide) (by decide),
   ((C3_redeem_principal_spec witRedeemCert 100 150).2.2 (by decide) (by decide)).1,
   ((C3_redeem_principal_spec witRedeemCert 100 150).2.2 (by decide) (by decide)).2⟩

/-- `calculate_available_funds` from `src/config.rs`: bound for
privileged withdrawals, `(total_funds + total_recharge_amount -
cumulative_admin_withdrawals) * (10000 - reserve_ratio) / 10000`, with
the subtraction of the withdrawals floored at zero and the final
division unchecked (the divisor is the constant 10000). -/
def calculate_available_funds
    (total_funds cumulative_admin_withdrawals
      total_recharge_amount reserve_ratio : Nat) : Except Nat Nat :=
  match safe_add total_funds total_recharge_amount with
  | .error e => .error e
  | .ok funds_with_recharge =>
    match (if cumulative_admin_withdrawals ≤ funds_with_recharge then
             safe_sub funds_with_recharge cumulative_admin_withdrawals
           else Except.ok 0) with
    | .error e => .error e
    | .ok user_withdrawable =>
      match safe_sub 10000 reserve_ratio with
      | .error _ => .error ERROR_UNDERFLOW
      | .ok multiplier =>
        match safe_mul user_withdrawable multiplier with
        | .error e => .error e
        | .ok available_before_division =>
          Except.ok (available_before_division / 10000)

/-- The floored-at-zero branch is truncated `Nat` subtraction. -/
lemma userWithdrawable_eq (fwr caw : Nat) :
    (if caw ≤ fwr then safe_sub fwr caw else Except.ok 0) =
      Except.ok (fwr - caw) := by
  unfold safe_sub
  by_cases hc : caw ≤ fwr
  · simp [hc]
  · simp [hc, Nat.sub_eq_zero_of_le (Nat.le_of_not_le hc)]

/-- Full characterisation of `calculate_available_funds`. -/
lemma calcFunds_ok_iff (tf caw trc rr v : Nat) :
    calculate_available_funds tf caw trc rr = Except.ok v ↔
      tf + trc < U64_LIMIT ∧ rr ≤ 10000 ∧
      (tf + trc - caw) * (10000 - rr) < U64_LIMIT ∧
      v = (tf + trc - caw) * (10000 - rr) / 10000 := by
  unfold calculate_available_funds safe_add
  by_cases h1 : tf + trc < U64_LIMIT
  · rw [if_pos h1]
    dsimp only
    rw [userWithdrawable_eq]
    dsimp only
    unfold safe_sub safe_mul
    by_cases h2 : rr ≤ 10000
    · rw [if_pos h2]
      dsimp only
      by_cases h3 : (tf + trc - caw) * (10000 - rr) < U64_LIMIT
      · rw [if_pos h3]
        simp [h1, h2, h3, eq_comm]
      · rw [if_neg h3]
        simp [h3]
    · rw [if_neg h2]
      simp [h2]
  · rw [if_neg h1]
    simp [h1]

/-- A successful availability computation never exceeds
`total_funds + total_recharge - cumulative_withdrawals` (floored at 0),
and implies that the fund aggregate fits in `u64`. -/
lemma calcFunds_bound {tf caw trc rr v : Nat}
    (h : calculate_available_funds tf caw trc rr = Except.ok v) :
    v ≤ tf + trc - caw ∧ tf + trc < U64_LIMIT := by
  obtain ⟨h1, h2, _, hv⟩ := (calcFunds_ok_iff tf caw trc rr v).1 h
  refine ⟨?_, h1⟩
  calc v = (tf + trc - caw) * (10000 - rr) / 10000 := hv
    _ ≤ (tf + trc - caw) * 10000 / 10000 :=
        Nat.div_le_div_right (Nat.mul_le_mul_left _ (Nat.sub_le _ _))
    _ = tf + trc - caw := Nat.mul_div_cancel _ (by decide)

/-- C4: on inputs where it succeeds, `calculate_available_funds` is
bounded by `total_funds + total_recharge - cumulative_withdrawals`
(floored at zero), monotone non-increasing in the reserve ratio and
monotone non-decreasing in the total funds. -/
theorem C4_available_funds_props (tf caw trc rr v : Nat)
    (h : calculate_available_funds tf caw trc rr = Except.ok v) :
    v ≤ tf + trc - caw ∧
    (∀ rr' v', rr ≤ rr' →
      calculate_available_funds tf caw trc rr' = Except.ok v' → v' ≤ v) ∧
    (∀ tf' v', tf ≤ tf' →
      calculate_available_funds tf' caw trc rr = Except.ok v' → v ≤ v') := by
  obtain ⟨h1, h2, h3, hv⟩ := (calcFunds_ok_iff tf caw trc rr v).1 h
  refine ⟨(calcFunds_bound h).1, ?_, ?_⟩
  · intro rr' v' hrr h'
    obtain ⟨_, _, _, hv'⟩ := (calcFunds_ok_iff tf caw trc rr' v').1 h'
    rw [hv, hv']
    exact Nat.div_le_div_right
      (Nat.mul_le_mul_left _ (Nat.sub_le_sub_left hrr 10000))
  · intro tf' v' htf h'
    obtain ⟨_, _, _, hv'⟩ := (calcFunds_ok_iff tf' caw trc rr v').1 h'
    rw [hv, hv']
    refine Nat.div_le_div_right (Nat.mul_le_mul_right _ ?_)
    exact Nat.sub_le_sub_right (Nat.add_le_add_right htf _) _

/-- Witness for C4 at concrete inputs: availability 855 at reserve
ratio 1000 stays under the 950 aggregate bound, drops to 475 when the
ratio grows to 5000, and grows to 1755 when total funds double. -/
theorem C4_witness : 855 ≤ 1000 + 50 - 100 ∧ 475 ≤ 855 ∧ 855 ≤ 1755 :=
  let H := C4_available_funds_props 1000 100 50 1000 855 (by decide)
  ⟨H.1, H.2.1 5000 475 (by decide) (by decide),
    H.2.2 2000 1755 (by decide) (by decide)⟩

/-- `GlobalState` from `src/state.rs`. -/
structure GlobalState where
  counter : Nat
  total_players : Nat
  total_funds : Nat
  txsize : Nat
  txcounter : Nat
  product_type_counter : Nat
  certificate_counter : Nat
  reserve_ratio : Nat
  cumulative_admin_withdrawals : Nat
  interest_claimed : Nat
  total_recharge_amount : Nat
  deriving DecidableEq, Repr

/-- `AdminWithdrawToMultisig::handle` from `src/command.rs`, as its
action on the global state: the handler mutates the global state only
after all checks pass, so an error leaves every field unchanged (the
admin nonce bookkeeping and the settlement queue are outside the
modelled state). -/
def adminWithdrawToMultisig (amount : Nat) (s : GlobalState) :
    GlobalState × Except Nat Unit :=
  if amount = 0 then (s, Except.error ERROR_INVALID_STAKE_AMOUNT)
  else
    match calculate_available_funds s.total_funds
        s.cumulative_admin_withdrawals s.total_recharge_amount
        s.reserve_ratio with
    | .error e => (s, .error e)
    | .ok max_available =>
      if max_available < amount then
        (s, Except.error ERROR_INSUFFICIENT_BALANCE)
      else
        match safe_add s.cumulative_admin_withdrawals amount with
        | .error e => (s, .error e)
        | .ok ncaw =>
          ({ s with cumulative_admin_withdrawals := ncaw }, Except.ok ())

/-- C5: a privileged withdrawal request above the availability bound
fails with `InsufficientBalance` leaving the whole global state
unchanged; a nonzero request within the bound succeeds and increases
`cumulative_admin_withdrawals` by exactly the requested amount. -/
theorem C5_admin_withdraw_gate (s : GlobalState) (amount m : Nat)
    (hcalc : calculate_available_funds s.total_funds
      s.cumulative_admin_withdrawals s.total_recharge_amount
      s.reserve_ratio = Except.ok m) :
    (m < amount →
      adminWithdrawToMultisig amount s =
        (s, Except.error ERROR_INSUFFICIENT_BALANCE)) ∧
    (amount ≠ 0 → amount ≤ m →
      adminWithdrawToMultisig amount s =
        ({ s with cumulative_admin_withdrawals :=
            s.cumulative_admin_withdrawals + amount }, Except.ok ())) := by
  constructor
  · intro hlt
    have hz : amount ≠ 0 := by omega
    unfold adminWithdrawToMultisig
    rw [if_neg hz, hcalc]
    dsimp only
    rw [if_pos hlt]
  · intro hz hle
    have hbound := calcFunds_bound hcalc
    unfold adminWithdrawToMultisig
    rw [if_neg hz, hcalc]
    dsimp only
    rw [if_neg (by omega : ¬ m < amount)]
    unfold safe_add
    have hfit : s.cumulative_admin_withdrawals + amount < U64_LIMIT := by
      rcases Nat.le_total s.cumulative_admin_withdrawals
          (s.total_funds + s.total_recharge_amount) with hc | hc
      · omega
      · have : s.total_funds + s.total_recharge_amount -
            s.cumulative_admin_withdrawals = 0 := by omega
        omega
    rw [if_pos hfit]

/-- A concrete global state: 1000 total funds, 100 already withdrawn,
50 recharged, 10% reserve ratio (availability 855). -/
def witState : GlobalState :=
  { counter := 0, total_players := 0, total_funds := 1000, txsize := 0,
    txcounter := 0, product_type_counter := 1, certificate_counter := 1,
    reserve_ratio := 1000, cumulative_admin_withdrawals := 100,
    interest_claimed := 0, total_recharge_amount := 50 }

/-- Witness for C5: withdrawing 900 > 855 fails leaving the state
unchanged; withdrawing 855 succeeds raising the cumulative total. -/
theorem C5_witness :
    adminWithdrawToMultisig 900 witState =
      (witState, Except.error ERROR_INSUFFICIENT_BALANCE) ∧
    adminWithdrawToMultisig 855 witState =
      ({ witState with cumulative_admin_withdrawals :=
          witState.cumulative_admin_withdrawals + 855 }, Except.ok ()) :=
  ⟨(C5_admin_withdraw_gate witState 900 855 (by decide)).1 (by decide),
   (C5_admin_withdraw_gate witState 855 855 (by decide)).2
     (by decide) (by decide)⟩

/-- `ProductTypeManager::get_default_recharge_product` from
`src/cert_manager.rs`: the synthesized recharge product, id 0, maximal
duration, zero APY, minimum amount 1, active. -/
def defaultRechargeProduct : ProductType :=
  { id := 0, duration_ticks := MAX_CERTIFICATE_DURATION_TICKS, apy := 0,
    min_amount := 1, is_active := true }

/-- The product-type storage namespace (merkle keys `[1,0,0,id]`),
modelled as the list of persisted records; lookup is by id. -/
def getStoredProduct (ps : List ProductType) (id : Nat) : Option ProductType :=
  ps.find? (fun p => p.id == id)

/-- `ProductTypeManager::get_product_type` from `src/cert_manager.rs`. -/
def get_product_type (ps : List ProductType) (id : Nat) : Option ProductType :=
  if id = 0 then some defaultRechargeProduct
  else getStoredProduct ps id

/-- `ProductTypeManager::store_product_type` from `src/cert_manager.rs`:
`kvpair.set` on key `[1,0,0,id]`, i.e. overwrite the record with that
id if present, otherwise add it. -/
def store_product_type (ps : List ProductType) (p : ProductType) :
    List ProductType :=
  if ps.any (fun q => q.id == p.id) then
    ps.map (fun q => if q.id == p.id then p else q)
  else ps ++ [p]

/-- `ProductTypeManager::create_product_type` from
`src/cert_manager.rs`, acting on the store and the global product-type
counter; returns the new store, counter and allocated id. -/
def create_product_type (ps : List ProductType) (counter : Nat)
    (duration_ticks apy min_amount : Nat) (is_active : Bool) :
    Except Nat (List ProductType × Nat × Nat) :=
  if duration_ticks = 0 ∨ MAX_CERTIFICATE_DURATION_TICKS < duration_ticks then
    Except.error ERROR_INVALID_DURATION
  else if MAX_APY_BASIS_POINTS < apy then Except.error ERROR_INVALID_APY
  else if ¬ (MIN_CERTIFICATE_AMOUNT ≤ min_amount ∧
      min_amount ≤ MAX_CERTIFICATE_AMOUNT) then
    Except.error ERROR_INVALID_PRINCIPAL_AMOUNT
  else
    let p := { ProductType.new counter duration_ticks apy min_amount with
      is_active := is_active }
    Except.ok (store_product_type ps p, counter + 1, counter)

/-- `ProductTypeManager::modify_product_type` from `src/cert_manager.rs`. -/
def modify_product_type (ps : List ProductType)
    (product_type_id new_apy new_duration new_min_amount : Nat)
    (is_active : Bool) : Except Nat (List ProductType) :=
  match get_product_type ps product_type_id with
  | none => Except.error ERROR_PRODUCT_TYPE_NOT_EXIST
  | some pt =>
    if MAX_APY_BASIS_POINTS < new_apy then Except.error ERROR_INVALID_APY
    else if new_duration = 0 ∨ MAX_CERTIFICATE_DURATION_TICKS < new_duration then
      Except.error ERROR_INVALID_DURATION
    else if new_min_amount = 0 then Except.error ERROR_INVALID_STAKE_AMOUNT
    else Except.ok (store_product_type ps
      { pt with
          apy := new_apy, duration_ticks := new_duration,
          min_amount := new_min_amount, is_active := is_active })

/-- Counterexample for C6: on empty storage, id 0 yields the synthesized
product with minimum amount 1, not `MIN_CERTIFICATE_AMOUNT` (= 10) as
the claim states. -/
theorem C6_counterexample :
    get_product_type [] 0 ≠
      some { id := 0, duration_ticks := MAX_CERTIFICATE_DURATION_TICKS,
             apy := 0, min_amount := MIN_CERTIFICATE_AMOUNT, is_active := true } ∧
    get_product_type [] 0 = some defaultRechargeProduct ∧
    defaultRechargeProduct.min_amount = 1 ∧ MIN_CERTIFICATE_AMOUNT = 10 := by
  refine ⟨by decide, rfl, rfl, rfl⟩

/-- C6 (amended): `get_product_type 0` always returns the synthesized
recharge product — maximal duration, zero APY, minimum amount 1 (not
`MIN_CERTIFICATE_AMOUNT`), active — regardless of storage, and any other
id returns `none` exactly when no product is stored under that id. -/
theorem C6_get_product_type_amended (ps : List ProductType) (id : Nat) :
    get_product_type ps 0 =
      some { id := 0, duration_ticks := MAX_CERTIFICATE_DURATION_TICKS,
             apy := 0, min_amount := 1, is_active := true } ∧
    (id ≠ 0 → (get_product_type ps id = none ↔
      getStoredProduct ps id = none)) := by
  constructor
  · rfl
  · intro h
    unfold get_product_type
    rw [if_neg h]

/-- A concrete stored product used by the catalog witnesses. -/
def witProduct : ProductType :=
  { id := 1, duration_ticks := 17280, apy := 1000, min_amount := 100,
    is_active := true }

/-- Witness for C6: with only the product of id 1 stored, id 7 reads
back as absent both through the manager and through raw storage. -/
theorem C6_witness :
    get_product_type [witProduct] 7 = none ↔
      getStoredProduct [witProduct] 7 = none :=
  (C6_get_product_type_amended [witProduct] 7).2 (by decide)

/-- Counterexample for C7: modifying product id 0 on empty storage does
not fail with `ProductTypeNotExist`; it succeeds and persists a record
under id 0. -/
theorem C7_counterexample :
    modify_product_type [] 0 100 17280 10 true =
      Except.ok [{ defaultRechargeProduct with
          apy := 100, duration_ticks := 17280, min_amount := 10 }] ∧
    modify_product_type [] 0 100 17280 10 true ≠
      Except.error ERROR_PRODUCT_TYPE_NOT_EXIST := by
  refine ⟨by decide, by decide⟩

/-- C7 (amended): `modify_product_type` on id 0 never fails with
`ProductTypeNotExist`: the lookup finds the synthesized recharge
product, so with valid parameters the call succeeds and persists a
modified copy of it under id 0, while reads of id 0 keep returning the
synthesized product. -/
theorem C7_modify_recharge_amended (ps : List ProductType)
    (napy ndur nmin : Nat) (act : Bool)
    (h1 : napy ≤ MAX_APY_BASIS_POINTS) (h2 : ndur ≠ 0)
    (h3 : ndur ≤ MAX_CERTIFICATE_DURATION_TICKS) (h4 : nmin ≠ 0) :
    modify_product_type ps 0 napy ndur nmin act =
      Except.ok (store_product_type ps
        { defaultRechargeProduct with
            apy := napy, duration_ticks := ndur,
            min_amount := nmin, is_active := act }) ∧
    get_product_type (store_product_type ps
        { defaultRechargeProduct with
            apy := napy, duration_ticks := ndur,
            min_amount := nmin, is_active := act }) 0 =
      some defaultRechargeProduct := by
  constructor
  · unfold modify_product_type get_product_type
    rw [if_pos rfl]
    dsimp only
    rw [if_neg (Nat.not_lt.mpr h1),
      if_neg (by push_neg; exact ⟨h2, h3⟩), if_neg h4]
  · rfl

/-- Witness for C7: a concrete valid modification of id 0 succeeds and
stores the record. -/
theorem C7_witness :
    modify_product_type [] 0 200 17280 3 false =
      Except.ok (store_product_type []
        { defaultRechargeProduct with
            apy := 200, duration_ticks := 17280,
            min_amount := 3, is_active := false }) ∧
    get_product_type (store_product_type []
        { defaultRechargeProduct with
            apy := 200, duration_ticks := 17280,
            min_amount := 3, is_active := false }) 0 =
      some defaultRechargeProduct :=
  C7_modify_recharge_amended [] 200 17280 3 false (by decide) (by decide)
    (by decide) (by decide)

/-- Counterexample for C8: with product 1 stored, modifying it with
`new_min_amount = 5` — below the global minimum 10 — succeeds and
persists the change instead of failing validation. -/
theorem C8_counterexample :
    modify_product_type [witProduct] 1 1000 17280 5 true =
      Except.ok [{ witProduct with min_amount := 5 }] ∧
    5 < MIN_CERTIFICATE_AMOUNT := by
  refine ⟨by decide, by decide⟩

/-- C8 (amended): for an existing product, `modify_product_type`
validates the APY and duration bounds as `create_product_type` does,
but for the minimum amount it only rejects 0 (with
`InvalidStakeAmount`); any nonzero minimum, even outside
`[MIN_CERTIFICATE_AMOUNT, MAX_CERTIFICATE_AMOUNT]`, is accepted and
persisted, whereas `create_product_type` rejects such a minimum with
`InvalidPrincipalAmount`. -/
theorem C8_modify_validation_amended (ps : List ProductType)
    (ptid napy ndur nmin : Nat) (act : Bool) (pt : ProductType)
    (hget : get_product_type ps ptid = some pt) :
    modify_product_type ps ptid napy ndur nmin act =
      (if MAX_APY_BASIS_POINTS < napy then Except.error ERROR_INVALID_APY
       else if ndur = 0 ∨ MAX_CERTIFICATE_DURATION_TICKS < ndur then
         Except.error ERROR_INVALID_DURATION
       else if nmin = 0 then Except.error ERROR_INVALID_STAKE_AMOUNT
       else Except.ok (store_product_type ps
         { pt with
             apy := napy, duration_ticks := ndur,
             min_amount := nmin, is_active := act })) ∧
    (∀ counter, ¬ (MIN_CERTIFICATE_AMOUNT ≤ nmin ∧
        nmin ≤ MAX_CERTIFICATE_AMOUNT) →
      ndur ≠ 0 → ndur ≤ MAX_CERTIFICATE_DURATION_TICKS →
      napy ≤ MAX_APY_BASIS_POINTS →
      create_product_type ps counter ndur napy nmin act =
        Except.error ERROR_INVALID_PRINCIPAL_AMOUNT) := by
  constructor
  · unfold modify_product_type
    rw [hget]
  · intro counter hr hd1 hd2 ha
    unfold create_product_type
    rw [if_neg (by push_neg; exact ⟨hd1, hd2⟩),
      if_neg (Nat.not_lt.mpr ha), if_pos hr]

/-- Witness for C8: creating a product with minimum amount 5 fails
validation while (per `C8_counterexample`) modifying to 5 succeeds. -/
theorem C8_witness :
    create_product_type [witProduct] 3 17280 1000 5 true =
      Except.error ERROR_INVALID_PRINCIPAL_AMOUNT :=
  (C8_modify_validation_amended [witProduct] 1 1000 17280 5 true witProduct
    (by decide)).2 3 (by decide) (by decide) (by decide) (by decide)

/-- System state for the purchase path: the global state singleton, the
stored product types, the persisted certificates (merkle namespace
`[2, owner, id]`, in store order) and the buyer's persisted idle
funds. -/
structure SysState where
  g : GlobalState
  products : List ProductType
  certs : List Certificate
  playerIdle : Nat
  deriving DecidableEq, Repr

/-- `CertificateManager::purchase_certificate` from
`src/cert_manager.rs`, threading the state it touches: the certificate
counter is advanced before the fallible maturity computation, and the
certificate is persisted before control returns to the command
handler. -/
def purchase_certificate (st : SysState) (owner : Nat × Nat)
    (product_type_id principal_amount : Nat) : SysState × Except Nat Nat :=
  if ¬ (MIN_CERTIFICATE_AMOUNT ≤ principal_amount ∧
      principal_amount ≤ MAX_CERTIFICATE_AMOUNT) then
    (st, Except.error ERROR_INVALID_PRINCIPAL_AMOUNT)
  else
    match get_product_type st.products product_type_id with
    | none => (st, Except.error ERROR_PRODUCT_TYPE_NOT_EXIST)
    | some product_type =>
      if ¬ product_type.is_active then
        (st, Except.error ERROR_PRODUCT_TYPE_INACTIVE)
      else if principal_amount < product_type.min_amount then
        (st, Except.error ERROR_PRINCIPAL_AMOUNT_TOO_SMALL)
      else
        let certificate_id := st.g.certificate_counter
        let g1 := { st.g with certificate_counter := (certificate_id + 1) % U64_LIMIT }
        let st1 := { st with g := g1 }
        match ProductType.calculate_maturity_time product_type st.g.counter with
        | .error e => (st1, .error e)
        | .ok maturity_time =>
          let cert := Certificate.new certificate_id owner product_type_id
            principal_amount st.g.counter maturity_time product_type.apy
          ({ st1 with certs := st1.certs ++ [cert] }, Except.ok certificate_id)

/-- `PurchaseCertificate::handle` from `src/command.rs`, threading the
state. The buyer's in-memory record is only persisted by the trailing
`player.store()`, so `playerIdle` changes exactly where that call is
reached; nonce bookkeeping and event emission are outside the modelled
state. -/
def purchaseCertificateHandle (st : SysState) (pid : Nat × Nat)
    (product_type_id amount : Nat) : SysState × Except Nat Unit :=
  if amount = 0 then (st, Except.error ERROR_INVALID_PRINCIPAL_AMOUNT)
  else if st.playerIdle < amount then
    (st, Except.error ERROR_INSUFFICIENT_BALANCE)
  else
    match purchase_certificate st pid product_type_id amount with
    | (st1, .error e) => (st1, .error e)
    | (st1, .ok _) =>
      let idle1 := st.playerIdle - amount
      if product_type_id = 0 then
        match safe_sub st1.g.total_funds amount with
        | .error e => (st1, .error e)
        | .ok tf1 =>
          match safe_add st1.g.total_recharge_amount amount with
          | .error e =>
            ({ st1 with g := { st1.g with total_funds := tf1 } }, .error e)
          | .ok trc1 =>
            ({ st1 with
                g := { st1.g with
                    total_funds := tf1, total_recharge_amount := trc1 },
                playerIdle := idle1 }, Except.ok ())
      else ({ st1 with playerIdle := idle1 }, Except.ok ())

/-- Starting state for the recharge-path failing input of C9: 50 total
funds on record, a buyer holding 100 idle units, empty catalog. -/
def c9Global : GlobalState :=
  { counter := 0, total_players := 1, total_funds := 50, txsize := 0,
    txcounter := 0, product_type_counter := 1, certificate_counter := 1,
    reserve_ratio := 1000, cumulative_admin_withdrawals := 0,
    interest_claimed := 0, total_recharge_amount := 0 }

def c9State : SysState :=
  { g := c9Global, products := [], certs := [], playerIdle := 100 }

/-- Starting state for the maturity-overflow failing input of C9: the
tick counter sits at the top of the `u64` range. -/
def c9GlobalOvf : GlobalState :=
  { counter := 2 ^ 64 - 1, total_players := 1, total_funds := 1000,
    txsize := 0, txcounter := 0, product_type_counter := 2,
    certificate_counter := 1, reserve_ratio := 1000,
    cumulative_admin_withdrawals := 0, interest_claimed := 0,
    total_recharge_amount := 0 }

def c9StateOvf : SysState :=
  { g := c9GlobalOvf, products := [witProduct], certs := [], playerIdle := 1000 }

/-- C9 fails on the code: on the recharge path (`product_type_id = 0`)
with the amount exceeding `total_funds`, the handler returns the
`Underflow` error code yet the certificate stands persisted and the
certificate counter stands advanced; on the maturity-overflow path the
handler returns the `Overflow` error code with the certificate counter
advanced. In both cases the claimed atomicity (an error implies no
visible state change) is violated. -/
theorem C9_purchase_not_atomic :
    (purchaseCertificateHandle c9State (7, 8) 0 100 =
      ({ c9State with
          g := { c9State.g with certificate_counter := 2 },
          certs := [Certificate.new 1 (7, 8) 0 100 0 63072000 0] },
        Except.error ERROR_UNDERFLOW) ∧
      (purchaseCertificateHandle c9State (7, 8) 0 100).1 ≠ c9State) ∧
    (purchaseCertificateHandle c9StateOvf (7, 8) 1 100 =
      ({ c9StateOvf with
          g := { c9StateOvf.g with certificate_counter := 2 } },
        Except.error ERROR_OVERFLOW) ∧
      (purchaseCertificateHandle c9StateOvf (7, 8) 1 100).1 ≠ c9StateOvf) := by
  refine ⟨⟨by decide, by decide⟩, ⟨by decide, by decide⟩⟩

/-- C10: `CertificateStatus.from_u64` is a left inverse of
`CertificateStatus.to_u64`, and it is total on `u64` words: every value
other than `1` and `2` decodes to `Active`. -/
theorem C10_status_roundtrip_and_default :
    (∀ s : CertificateStatus, CertificateStatus.from_u64 s.to_u64 = s) ∧
    (∀ v : Nat, v ≠ 1 → v ≠ 2 → CertificateStatus.from_u64 v = .Active) := by
  constructor
  · intro s; cases s <;> rfl
  · intro v h1 h2
    match v with
    | 0 => rfl
    | 1 => exact absurd rfl h1
    | 2 => exact absurd rfl h2
    | n + 3 => rfl

/-- Witness for C10: concrete decodings, including an out-of-range word. -/
theorem C10_witness :
    CertificateStatus.from_u64 (CertificateStatus.to_u64 .Matured) = .Matured ∧
    CertificateStatus.from_u64 7 = .Active := by
  refine ⟨C10_status_roundtrip_and_default.1 .Matured, ?_⟩
  exact C10_status_roundtrip_and_default.2 7 (by decide) (by decide)

end ZkStaking
